import Mathlib

/-
Verification of the portfolio-constrained position-sizing and orchestration
engine of the Trading-Agent-Template repository.

The definitions below are a shallow embedding of the TypeScript sources:
JavaScript numbers are modelled as exact rationals (ℚ), raw on-chain
quantities as integers, fallible external calls as `Except Unit` values that
the code's catch blocks turn into defaults, and the per-iteration loop as a
pure function over the list of tokens.  Two variants of the main file exist
in the repository (referred to here as the part_000 and part_001 variants of
the `loop` function); both are embedded where their behaviour differs.
-/

namespace TradingAgent

/-- Portfolio categories, from src/config/portfolio-settings.ts. -/
inductive Category
  | ada
  | stable
  | defi
  | ai
  | gaming
  | meme_coins
  | depin
  | other
deriving DecidableEq

/-- Target allocation ratios per category (TARGET_RATIOS in
portfolio-settings.ts). -/
def targetRatios : Category → ℚ
  | Category.ada => 20/100
  | Category.stable => 15/100
  | Category.defi => 15/100
  | Category.ai => 15/100
  | Category.gaming => 10/100
  | Category.meme_coins => 10/100
  | Category.depin => 10/100
  | Category.other => 5/100

/-- Containment of one character list inside another, checked at every
suffix. -/
def containsSub (sub : List Char) : List Char → Bool
  | [] => sub.isPrefixOf []
  | c :: t => sub.isPrefixOf (c :: t) || containsSub sub t

/-- JavaScript String.prototype.includes: substring containment. -/
def jsIncludes (s sub : String) : Bool :=
  containsSub sub.data s.data

/-- TOKEN_POLICIES.stable from portfolio-settings.ts. -/
def stablePolicies : List String := ["policy1", "policy2"]

/-- TOKEN_POLICIES.defi from portfolio-settings.ts. -/
def defiPolicies : List String := ["policy3"]

/-- classifyToken from portfolio-settings.ts: substring policy matching. -/
def classifyToken (unit : String) : Category :=
  if stablePolicies.any (fun id => jsIncludes unit id) then Category.stable
  else if defiPolicies.any (fun id => jsIncludes unit id) then Category.defi
  else Category.other

/-- Profit-target triple of a TokenConfig (token-lists.ts). -/
structure ProfitTargets where
  quick : ℚ
  medium : ℚ
  long : ℚ
deriving DecidableEq

/-- TokenConfig from token-lists.ts.  Optional fields are `Option`s. -/
structure TokenConfig where
  unit : String
  ticker : String
  decimals : Option Nat := none
  category : Category
  minTradeSize : Option ℚ := none
  maxTradeSize : Option ℚ := none
  profitTargets : Option ProfitTargets := none
  stopLoss : Option ℚ := none
  trailingStop : Option ℚ := none
  maxHoldTime : Option ℚ := none
deriving DecidableEq

/-- TRADING_TOKENS from token-lists.ts, verbatim. -/
def TRADING_TOKENS : List TokenConfig :=
  [ { unit := "97bbb7db0baef89caefce61b8107ac74c7a7340166b39d906f174bec54616c6f73"
    , ticker := "TALOS"
    , category := Category.ai
    , minTradeSize := some 10
    , maxTradeSize := some 200
    , profitTargets := some { quick := 10/100, medium := 20/100, long := 30/100 }
    , trailingStop := some (5/100) }
  , { unit := "6787a47e9f73efe4002d763337140da27afa8eb9a39413d2c39d4286524144546f6b656e73"
    , ticker := "RAD"
    , category := Category.gaming
    , minTradeSize := some 10
    , maxTradeSize := some 200
    , profitTargets := some { quick := 10/100, medium := 20/100, long := 30/100 }
    , trailingStop := some (5/100) }
  , { unit := "8db269c3ec630e06ae29f74bc39edd1f87c819f1056206e879a1cd61446a65644d6963726f555344"
    , ticker := "DJED"
    , category := Category.stable
    , minTradeSize := some 10
    , maxTradeSize := some 200
    , profitTargets := some { quick := 2/100, medium := 5/100, long := 8/100 }
    , trailingStop := some (2/100) }
  , { unit := "e5a42a1a1d3d1da71b0449663c32798725888d2eb0843c4dabeca05a576f726c644d6f62696c65546f6b656e58"
    , ticker := "WMTX"
    , category := Category.depin
    , minTradeSize := some 10
    , maxTradeSize := some 200
    , profitTargets := some { quick := 10/100, medium := 20/100, long := 30/100 }
    , trailingStop := some (8/100) }
  , { unit := "da8c30857834c6ae7203935b89278c532b3995245295456f993e1d244c51"
    , ticker := "LQ"
    , category := Category.defi
    , minTradeSize := some 10
    , maxTradeSize := some 200
    , profitTargets := some { quick := 10/100, medium := 20/100, long := 30/100 }
    , trailingStop := some (6/100) }
  , { unit := "279c909f348e533da5808898f87f9a14bb2c3dfbbacccd631d927a3f534e454b"
    , ticker := "SNEK"
    , category := Category.meme_coins
    , minTradeSize := some 10
    , maxTradeSize := some 200
    , profitTargets := some { quick := 10/100, medium := 20/100, long := 30/100 }
    , trailingStop := some (10/100) }
  ]

/-- getTokenConfig from token-lists.ts: exact lookup by unit. -/
def getTokenConfig (unit : String) : Option TokenConfig :=
  TRADING_TOKENS.find? (fun t => t.unit == unit)

/-- getTokenConfigByTicker from token-lists.ts: exact lookup by ticker. -/
def getTokenConfigByTicker (ticker : String) : Option TokenConfig :=
  TRADING_TOKENS.find? (fun t => t.ticker == ticker)

/-- Trade direction of an LLM decision. -/
inductive Direction
  | buy
  | sell
deriving DecidableEq

/-- LlmDecision from the main file; the trade field models the
'true'/'false' string, and the opaque reasoning field is omitted. -/
structure LlmDecision where
  trade : Bool
  direction : Direction
  confidence : ℚ
  size : ℚ
deriving DecidableEq

/-- The reject-all default returned by getLlmTradingDecision's catch block. -/
def defaultLlmDecision : LlmDecision :=
  { trade := false, direction := Direction.buy, confidence := 0, size := 0 }

/-- A JavaScript try/catch that substitutes a fallback on failure, as every
TapTools wrapper and the LLM wrapper do. -/
def jsCatch {α : Type} (result : Except Unit α) (fallback : α) : α :=
  match result with
  | Except.ok a => a
  | Except.error _ => fallback

/-- adjustTradeForPortfolio from the main file (part_000 lines 621-650,
identical in part_001): the naive per-category position sizer. -/
def adjustTradeForPortfolio (direction : Direction) (category : Category)
    (recommendedAda totalAdaValue currentCategoryValue userAdaBalance : ℚ) : ℚ :=
  match direction with
  | Direction.buy =>
    let maxAllowedCategory := targetRatios category * totalAdaValue
    let roomLeft := maxAllowedCategory - currentCategoryValue
    if roomLeft ≤ 0 then 0
    else
      let maxUserCanSpend := max 0 (userAdaBalance - 2)
      let finalAda := min recommendedAda (min roomLeft maxUserCanSpend)
      if finalAda < 1 then 0 else finalAda
  | Direction.sell => recommendedAda

/-- The basic fallback config built inside getTokenInfo when the unit is not
found among the configured tickers (part_000 lines 872-885). -/
def fallbackTokenConfig (unit : String) : TokenConfig :=
  { unit := unit
  , ticker := unit.take 10 ++ "..."
  , category := Category.other
  , minTradeSize := some 10
  , maxTradeSize := some 200
  , profitTargets := some { quick := 10/100, medium := 20/100, long := 30/100 }
  , trailingStop := some (5/100) }

/-- getTokenInfo from part_000 (lines 865-886): looks the unit up with
getTokenConfigByTicker and otherwise builds the fallback config. -/
def getTokenInfo (unit : String) : Option TokenConfig :=
  match getTokenConfigByTicker unit with
  | some configuredToken => some configuredToken
  | none => some (fallbackTokenConfig unit)

/-- Resolution of `tokenConfig.minTradeSize || 50` (JavaScript truthiness:
an absent or zero value falls back to 50). -/
def resolveMinSize (cfg : TokenConfig) : ℚ :=
  match cfg.minTradeSize with
  | some m => if m = 0 then 50 else m
  | none => 50

/-- Resolution of `tokenConfig.maxTradeSize || 500`. -/
def resolveMaxSize (cfg : TokenConfig) : ℚ :=
  match cfg.maxTradeSize with
  | some m => if m = 0 then 500 else m
  | none => 500

/-- The size clamp `Math.min(Math.max(decision.size || minSize, minSize),
maxSize)` from the loop body (part_000 line 1048). -/
def clampedSize (d : LlmDecision) (cfg : TokenConfig) : ℚ :=
  min (max (if d.size = 0 then resolveMinSize cfg else d.size) (resolveMinSize cfg))
    (resolveMaxSize cfg)

/-- The decision gate of the loop body (part_000 lines 1029-1048): reject on
tradeFlag false or confidence below 0.6, otherwise clamp the size. -/
def gateDecision (d : LlmDecision) (cfg : TokenConfig) : Option ℚ :=
  if d.trade = false then none
  else if d.confidence < 6/10 then none
  else some (clampedSize d cfg)

/-- One asset entry of the TapTools address-info response: the unit and the
parsed raw integer quantity. -/
structure WalletAsset where
  unit : String
  quantity : ℤ
deriving DecidableEq

/-- The per-category values and running total built by the part_000 loop. -/
structure Snapshot where
  categoryValues : Category → ℚ
  totalAdaValue : ℚ

/-- Decimals resolution `tokenInfo?.decimals || await getAssetDecimals(unit)`
from the part_000 loop (line 991): JavaScript truthiness means an absent
config, an absent decimals field, or a zero decimals field all fall back to
the external per-asset metadata lookup. -/
def resolveDecimals (lookupDecimals : String → Nat) (unit : String) : Nat :=
  match getTokenConfig unit with
  | some cfg =>
    match cfg.decimals with
    | some d => if d = 0 then lookupDecimals unit else d
    | none => lookupDecimals unit
  | none => lookupDecimals unit

/-- Category resolution `tokenInfo?.category || 'other'` from the part_000
loop (line 998). -/
def assetCategory000 (unit : String) : Category :=
  match getTokenConfig unit with
  | some cfg => cfg.category
  | none => Category.other

/-- Value of one wallet asset in the part_000 loop (lines 994-995):
`(parseInt(quantity) / 10 ** decimals) * price`. -/
def assetValue000 (prices : String → ℚ) (lookupDecimals : String → Nat)
    (a : WalletAsset) : ℚ :=
  ((a.quantity : ℚ) / 10 ^ resolveDecimals lookupDecimals a.unit) * prices a.unit

/-- One pass of the part_000 valuation loop body (lines 985-1001): skip
non-positive prices, otherwise add the asset value to its category and to the
running total. -/
def valuationStep000 (prices : String → ℚ) (lookupDecimals : String → Nat)
    (s : Snapshot) (a : WalletAsset) : Snapshot :=
  if prices a.unit ≤ 0 then s
  else
    let v := assetValue000 prices lookupDecimals a
    let c := assetCategory000 a.unit
    { categoryValues := fun c2 => if c2 = c then s.categoryValues c2 + v else s.categoryValues c2
    , totalAdaValue := s.totalAdaValue + v }

/-- The snapshot seeded with the ADA balance (part_000 lines 966-970):
`categoryValues.ada = lovelace / 1_000_000` and the same amount added to the
total. -/
def seedSnapshot (lovelace : ℤ) : Snapshot :=
  { categoryValues := fun c => if c = Category.ada then (lovelace : ℚ) / 1000000 else 0
  , totalAdaValue := (lovelace : ℚ) / 1000000 }

/-- The full part_000 portfolio valuation (lines 965-1005). -/
def valuePortfolio000 (prices : String → ℚ) (lookupDecimals : String → Nat)
    (lovelace : ℤ) (assets : List WalletAsset) : Snapshot :=
  assets.foldl (valuationStep000 prices lookupDecimals) (seedSnapshot lovelace)

/-- Sum of a snapshot's values over every category. -/
def sumCategories (f : Category → ℚ) : ℚ :=
  f Category.ada + f Category.stable + f Category.defi + f Category.ai +
    f Category.gaming + f Category.meme_coins + f Category.depin + f Category.other

/-- Value of one wallet asset in the part_001 loop (lines 700-701):
`parseInt(quantity) * price`, with no decimals division. -/
def assetValue001 (prices : String → ℚ) (a : WalletAsset) : ℚ :=
  (a.quantity : ℚ) * prices a.unit

/-- One pass of the part_001 valuation loop body (lines 695-707): skip
non-positive prices, otherwise add `quantity * price` to the category chosen
by classifyToken. -/
def valuationStep001 (prices : String → ℚ) (f : Category → ℚ)
    (a : WalletAsset) : Category → ℚ :=
  if prices a.unit ≤ 0 then f
  else
    let v := assetValue001 prices a
    let c := classifyToken a.unit
    fun c2 => if c2 = c then f c2 + v else f c2

/-- The part_001 per-category values: ADA balance seeded, then each asset
accumulated (lines 677-707). -/
def categoryValues001 (prices : String → ℚ) (lovelace : ℤ)
    (assets : List WalletAsset) : Category → ℚ :=
  assets.foldl (valuationStep001 prices)
    (fun c => if c = Category.ada then (lovelace : ℚ) / 1000000 else 0)

/-- The part_001 total: `Object.values(categoryValues).reduce((a,b) => a+b, 0)`
(line 710). -/
def totalAdaValue001 (prices : String → ℚ) (lovelace : ℤ)
    (assets : List WalletAsset) : ℚ :=
  sumCategories (categoryValues001 prices lovelace assets)

/-- One token entry of the iteration's token list. -/
structure TapToolsVolumeToken where
  price : ℚ
  ticker : String
  unit : String
  volume : ℚ
deriving DecidableEq

/-- Raw outcomes of the six per-token TapTools market-data calls; each call
may fail (its wrapper catches the failure and substitutes a default).  The
JSON payloads are opaque strings here. -/
structure FetchResults where
  aggregatedPrice : Except Unit (Option ℚ)
  priceChange : Except Unit String
  pools : Except Unit String
  ohlcv : Except Unit String
  tradingStats : Except Unit String
  mcap : Except Unit String

/-- The tokenData object handed to the LLM (part_000 lines 1011-1024). -/
structure TokenData where
  ticker : String
  unit : String
  volume24h : ℚ
  price : ℚ
  aggregatedPrice : Option ℚ
  priceChange : String
  pools : String
  ohlcv : String
  tradingStats : String
  mcap : String
deriving DecidableEq

/-- Assembly of tokenData: each TapTools wrapper catches its own failure and
returns the empty default (null, an empty record or an empty array), so a
failed fetch degrades the data instead of throwing. -/
def buildTokenData (t : TapToolsVolumeToken) (f : FetchResults) : TokenData :=
  { ticker := t.ticker
  , unit := t.unit
  , volume24h := t.volume
  , price := t.price
  , aggregatedPrice := jsCatch f.aggregatedPrice none
  , priceChange := jsCatch f.priceChange "\x7b\x7d"
  , pools := jsCatch f.pools "[]"
  , ohlcv := jsCatch f.ohlcv "[]"
  , tradingStats := jsCatch f.tradingStats "\x7b\x7d"
  , mcap := jsCatch f.mcap "\x7b\x7d" }

/-- The per-token tail of the part_000 loop body (lines 1029-1068): gate the
decision, resolve the token config, clamp the size, and, when a portfolio
snapshot exists, run the position sizer and drop amounts below 1.  The result
is the order handed to executeDexSwap, or none when the token is skipped. -/
def processToken (portfolio : Option Snapshot) (unit : String)
    (d : LlmDecision) : Option (Direction × ℚ) :=
  if d.trade = false then none
  else if d.confidence < 6/10 then none
  else
    match getTokenInfo unit with
    | none => none
    | some cfg =>
      let recommended := clampedSize d cfg
      match portfolio with
      | none => some (d.direction, recommended)
      | some snap =>
        let finalAmount := adjustTradeForPortfolio d.direction cfg.category recommended
          snap.totalAdaValue (snap.categoryValues cfg.category) (snap.categoryValues Category.ada)
        if finalAmount < 1 then none else some (d.direction, finalAmount)

/-- The per-token stage of one iteration (part_000 lines 1009-1069): every
token of the list is processed; the LLM call's failure is caught and replaced
with the reject-all default decision. -/
def runIteration (llm : TokenData → Except Unit LlmDecision)
    (portfolio : Option Snapshot)
    (toks : List (TapToolsVolumeToken × FetchResults)) : List (Option (Direction × ℚ)) :=
  toks.map fun tf =>
    processToken portfolio tf.1.unit (jsCatch (llm (buildTokenData tf.1 tf.2)) defaultLlmDecision)

/-- The parsed TapTools address-info payload used for valuation. -/
structure AddressInfo where
  lovelace : ℤ
  assets : List WalletAsset

/-- One full iteration of the part_000 loop (lines 937-1069): the address
info is fetched only when an address is configured (a failed lookup yields
none), the snapshot is built once when address info exists, and every token
is then processed against that same optional snapshot. -/
def runLoop (prices : String → ℚ) (lookupDecimals : String → Nat)
    (llm : TokenData → Except Unit LlmDecision)
    (addressConfigured : Bool) (addressLookup : Option AddressInfo)
    (toks : List (TapToolsVolumeToken × FetchResults)) : List (Option (Direction × ℚ)) :=
  let addressInfo := if addressConfigured then addressLookup else none
  let portfolio := addressInfo.map fun info =>
    valuePortfolio000 prices lookupDecimals info.lovelace info.assets
  runIteration llm portfolio toks

/-- The SNEK unit string, used as a concrete asset unit in witnesses. -/
def snekUnit : String :=
  "279c909f348e533da5808898f87f9a14bb2c3dfbbacccd631d927a3f534e454b"

/-- A concrete token entry for witnesses and counterexamples. -/
def sampleToken : TapToolsVolumeToken :=
  { price := 0, ticker := "SNEK", unit := snekUnit, volume := 0 }

/-- Fetch results in which every market-data call failed. -/
def allFailedFetches : FetchResults :=
  { aggregatedPrice := Except.error ()
  , priceChange := Except.error ()
  , pools := Except.error ()
  , ohlcv := Except.error ()
  , tradingStats := Except.error ()
  , mcap := Except.error () }

/-- Fetch results in which every market-data call succeeded. -/
def allOkFetches : FetchResults :=
  { aggregatedPrice := Except.ok (some 1)
  , priceChange := Except.ok "\x7b\x7d"
  , pools := Except.ok "[]"
  , ohlcv := Except.ok "[]"
  , tradingStats := Except.ok "\x7b\x7d"
  , mcap := Except.ok "\x7b\x7d" }

/-- A decision source that always returns a confident buy of 100 ADA. -/
def llmBuyHigh : TokenData → Except Unit LlmDecision :=
  fun _ => Except.ok { trade := true, direction := Direction.buy, confidence := 9/10, size := 100 }

/-- A decision source whose request always fails. -/
def llmAlwaysError : TokenData → Except Unit LlmDecision :=
  fun _ => Except.error ()

/-- C1: on a buy, when the current category value is at least
targetRatios[category] * totalAdaValue (that is, roomLeft ≤ 0), the position
sizer returns exactly 0. -/
theorem claim1_buy_at_cap_returns_zero (category : Category)
    (recommendedAda totalAdaValue currentCategoryValue userAdaBalance : ℚ)
    (h : targetRatios category * totalAdaValue ≤ currentCategoryValue) :
    adjustTradeForPortfolio Direction.buy category recommendedAda totalAdaValue
      currentCategoryValue userAdaBalance = 0 := by
  simp only [adjustTradeForPortfolio]
  rw [if_pos (by linarith)]

/-- Witness for C1: a buy into a category already over its cap returns 0. -/
theorem claim1_witness :
    adjustTradeForPortfolio Direction.buy Category.defi 100 1000 300 500 = 0 :=
  claim1_buy_at_cap_returns_zero Category.defi 100 1000 300 500
    (by norm_num [targetRatios])

/-- C2 counterexample: with recommendedAda = 100, totalAdaValue = 1000,
currentCategoryValue = 0 and userAdaBalance = 0 in category defi, the sizer
returns 0, but the claimed bound min(recommendedAda, roomLeft,
userAdaBalance - 2) equals -2, so the claimed inequality fails. -/
theorem claim2_counterexample :
    ¬ (adjustTradeForPortfolio Direction.buy Category.defi 100 1000 0 0 ≤
        min (100 : ℚ) (min (targetRatios Category.defi * 1000 - 0) (0 - 2))) := by
  norm_num [adjustTradeForPortfolio, targetRatios, min_def, max_def]

/-- C2 amended: the buy result is never negative and never exceeds
max(0, min(recommendedAda, roomLeft, userAdaBalance - 2)); the max(0, ·) is
needed because the sizer returns 0 whenever the inner min is negative. -/
theorem claim2_buy_bounds (category : Category)
    (recommendedAda totalAdaValue currentCategoryValue userAdaBalance : ℚ) :
    0 ≤ adjustTradeForPortfolio Direction.buy category recommendedAda totalAdaValue
        currentCategoryValue userAdaBalance ∧
    adjustTradeForPortfolio Direction.buy category recommendedAda totalAdaValue
        currentCategoryValue userAdaBalance ≤
      max 0 (min recommendedAda
        (min (targetRatios category * totalAdaValue - currentCategoryValue)
          (userAdaBalance - 2))) := by
  simp only [adjustTradeForPortfolio]
  split_ifs with h1 h2
  · exact ⟨le_refl 0, le_max_left _ _⟩
  · exact ⟨le_refl 0, le_max_left _ _⟩
  · push_neg at h2
    refine ⟨by linarith, ?_⟩
    rcases le_or_lt 0 (userAdaBalance - 2) with hb | hb
    · rw [max_eq_right hb]
      exact le_max_right _ _
    · exfalso
      rw [max_eq_left (by linarith : userAdaBalance - 2 ≤ 0)] at h2
      have hz : min recommendedAda
          (min (targetRatios category * totalAdaValue - currentCategoryValue) 0) ≤ 0 :=
        le_trans (min_le_right _ _) (min_le_right _ _)
      linarith

/-- C9: the sell path passes recommendedAda through unchanged, whatever the
portfolio snapshot and balances are; no token-holdings check is applied. -/
theorem claim9_sell_passthrough (category : Category)
    (recommendedAda totalAdaValue currentCategoryValue userAdaBalance : ℚ) :
    adjustTradeForPortfolio Direction.sell category recommendedAda totalAdaValue
      currentCategoryValue userAdaBalance = recommendedAda := rfl

/-- The seed snapshot satisfies the total-equals-sum invariant. -/
theorem seedSnapshot_invariant (lovelace : ℤ) :
    (seedSnapshot lovelace).totalAdaValue =
      sumCategories (seedSnapshot lovelace).categoryValues := by
  simp [seedSnapshot, sumCategories]

/-- One part_000 valuation step preserves the total-equals-sum invariant. -/
theorem valuationStep000_invariant (prices : String → ℚ)
    (lookupDecimals : String → Nat) (s : Snapshot) (a : WalletAsset)
    (h : s.totalAdaValue = sumCategories s.categoryValues) :
    (valuationStep000 prices lookupDecimals s a).totalAdaValue =
      sumCategories (valuationStep000 prices lookupDecimals s a).categoryValues := by
  unfold valuationStep000
  split_ifs with hp
  · exact h
  · cases hc : assetCategory000 a.unit <;>
      simp [sumCategories, hc, h] <;> ring

/-- Folding part_000 valuation steps preserves the invariant. -/
theorem valuePortfolio000_fold_invariant (prices : String → ℚ)
    (lookupDecimals : String → Nat) (assets : List WalletAsset) :
    ∀ s : Snapshot, s.totalAdaValue = sumCategories s.categoryValues →
      (assets.foldl (valuationStep000 prices lookupDecimals) s).totalAdaValue =
        sumCategories ((assets.foldl (valuationStep000 prices lookupDecimals) s)).categoryValues := by
  induction assets with
  | nil => intro s h; exact h
  | cons a t ih =>
    intro s h
    exact ih _ (valuationStep000_invariant prices lookupDecimals s a h)

/-- C3: every snapshot built by an iteration satisfies totalAdaValue equal to
the sum of the category values, in both loop variants; over exact rational
arithmetic the identity is exact, hence within any rounding epsilon. -/
theorem claim3_total_eq_sum_categories (prices : String → ℚ)
    (lookupDecimals : String → Nat) (lovelace : ℤ) (assets : List WalletAsset) :
    (valuePortfolio000 prices lookupDecimals lovelace assets).totalAdaValue =
      sumCategories (valuePortfolio000 prices lookupDecimals lovelace assets).categoryValues ∧
    totalAdaValue001 prices lovelace assets =
      sumCategories (categoryValues001 prices lovelace assets) :=
  ⟨valuePortfolio000_fold_invariant prices lookupDecimals assets _
      (seedSnapshot_invariant lovelace), rfl⟩

/-- The clamp lands between the resolved bounds whenever they are ordered. -/
theorem clampedSize_bounds (d : LlmDecision) (cfg : TokenConfig)
    (h : resolveMinSize cfg ≤ resolveMaxSize cfg) :
    resolveMinSize cfg ≤ clampedSize d cfg ∧ clampedSize d cfg ≤ resolveMaxSize cfg := by
  unfold clampedSize
  exact ⟨le_min (le_max_right _ _) h, min_le_right _ _⟩

/-- C4: the gate rejects every recommendation whose confidence is below the
0.6 threshold, whatever its direction or size (and the loop then produces no
order for that token), and every recommendation that passes the gate has its
size clamped into [minTradeSize, maxTradeSize] as resolved with the 50/500
defaults. -/
theorem claim4_gate_threshold_and_clamp (d : LlmDecision) (cfg : TokenConfig) :
    (d.confidence < 6/10 → gateDecision d cfg = none) ∧
    (d.confidence < 6/10 → ∀ portfolio unit, processToken portfolio unit d = none) ∧
    (∀ r, gateDecision d cfg = some r →
      resolveMinSize cfg ≤ resolveMaxSize cfg →
      resolveMinSize cfg ≤ r ∧ r ≤ resolveMaxSize cfg) := by
  refine ⟨?_, ?_, ?_⟩
  · intro h
    unfold gateDecision
    split_ifs <;> rfl
  · intro h portfolio unit
    unfold processToken
    split_ifs <;> rfl
  · intro r hr hle
    unfold gateDecision at hr
    split_ifs at hr
    injection hr with hr'
    subst hr'
    exact clampedSize_bounds d cfg hle

/-- Witness for C4: a confidence of 0.4 is rejected, and a passing size of
100 lies within the resolved bounds of the fallback config. -/
theorem claim4_witness :
    gateDecision { trade := true, direction := Direction.buy, confidence := 4/10, size := 300 }
      (fallbackTokenConfig "unitA") = none ∧
    (resolveMinSize (fallbackTokenConfig "unitA") ≤ 100 ∧
      (100 : ℚ) ≤ resolveMaxSize (fallbackTokenConfig "unitA")) := by
  constructor
  · exact (claim4_gate_threshold_and_clamp _ (fallbackTokenConfig "unitA")).1 (by norm_num)
  · have hg : gateDecision
        { trade := true, direction := Direction.buy, confidence := 9/10, size := 100 }
        (fallbackTokenConfig "unitA") = some 100 := by
      norm_num [gateDecision, clampedSize, resolveMinSize, resolveMaxSize, fallbackTokenConfig]
    have hle : resolveMinSize (fallbackTokenConfig "unitA") ≤
        resolveMaxSize (fallbackTokenConfig "unitA") := by
      norm_num [resolveMinSize, resolveMaxSize, fallbackTokenConfig]
    exact (claim4_gate_threshold_and_clamp
      { trade := true, direction := Direction.buy, confidence := 9/10, size := 100 }
      (fallbackTokenConfig "unitA")).2.2 100 hg hle

/-- Every configured trading token resolves to min 10 and max 200. -/
theorem trading_tokens_sizes : ∀ cfg ∈ TRADING_TOKENS,
    resolveMinSize cfg = 10 ∧ resolveMaxSize cfg = 200 := by
  intro cfg hcfg
  fin_cases hcfg <;> norm_num [resolveMinSize, resolveMaxSize]

/-- Whatever the unit, getTokenInfo yields a config resolving to bounds
10/200: the configured entries all carry those values and the fallback does
too. -/
theorem getTokenInfo_sizes (unit : String) :
    ∃ cfg, getTokenInfo unit = some cfg ∧
      resolveMinSize cfg = 10 ∧ resolveMaxSize cfg = 200 := by
  cases h : getTokenConfigByTicker unit with
  | none =>
    refine ⟨fallbackTokenConfig unit, ?_, ?_, ?_⟩
    · simp [getTokenInfo, h]
    · norm_num [resolveMinSize, fallbackTokenConfig]
    · norm_num [resolveMaxSize, fallbackTokenConfig]
  | some cfg =>
    have h' : TRADING_TOKENS.find? (fun t => t.ticker == unit) = some cfg := h
    have hmem : cfg ∈ TRADING_TOKENS := List.mem_of_find?_eq_some h'
    exact ⟨cfg, by simp [getTokenInfo, h],
      (trading_tokens_sizes cfg hmem).1, (trading_tokens_sizes cfg hmem).2⟩

/-- Any order emitted by processToken carries an amount of at least 1. -/
theorem processToken_amount_ge_one (portfolio : Option Snapshot) (unit : String)
    (d : LlmDecision) (dir : Direction) (amt : ℚ)
    (h : processToken portfolio unit d = some (dir, amt)) : 1 ≤ amt := by
  obtain ⟨cfg, hcfg, hmin, hmax⟩ := getTokenInfo_sizes unit
  have hclamp : (1 : ℚ) ≤ clampedSize d cfg := by
    have hb := clampedSize_bounds d cfg (by rw [hmin, hmax]; norm_num)
    rw [hmin] at hb
    linarith [hb.1]
  unfold processToken at h
  rw [hcfg] at h
  dsimp only at h
  split_ifs at h
  cases portfolio with
  | none =>
    simp only [Option.some.injEq, Prod.mk.injEq] at h
    rcases h with ⟨-, rfl⟩
    exact hclamp
  | some snap =>
    dsimp only at h
    split_ifs at h with h3
    simp only [Option.some.injEq, Prod.mk.injEq] at h
    rcases h with ⟨-, rfl⟩
    exact not_lt.mp h3

/-- Concrete evaluation: with the always-buy decision source, no snapshot and
successful fetches, the sample token executes a 100 ADA buy. -/
theorem iterationEvalOk :
    runIteration llmBuyHigh none [(sampleToken, allOkFetches)] =
      [some (Direction.buy, 100)] := by
  simp [runIteration, processToken, getTokenInfo, getTokenConfigByTicker, TRADING_TOKENS,
    List.find?, jsCatch, llmBuyHigh, sampleToken, allOkFetches, buildTokenData, clampedSize,
    fallbackTokenConfig, resolveMinSize, resolveMaxSize, snekUnit, defaultLlmDecision]
  norm_num

/-- Concrete evaluation: the same iteration with every market-data fetch
failed still executes the 100 ADA buy. -/
theorem iterationEvalFailedFetches :
    runIteration llmBuyHigh none [(sampleToken, allFailedFetches)] =
      [some (Direction.buy, 100)] := by
  simp [runIteration, processToken, getTokenInfo, getTokenConfigByTicker, TRADING_TOKENS,
    List.find?, jsCatch, llmBuyHigh, sampleToken, allFailedFetches, buildTokenData, clampedSize,
    fallbackTokenConfig, resolveMinSize, resolveMaxSize, snekUnit, defaultLlmDecision]
  norm_num

/-- C7: every order the loop hands to the swap executor has an ADA amount of
at least 1, whether or not a portfolio snapshot constrains it. -/
theorem claim7_swap_amount_ge_one (llm : TokenData → Except Unit LlmDecision)
    (portfolio : Option Snapshot) (toks : List (TapToolsVolumeToken × FetchResults))
    (dir : Direction) (amt : ℚ)
    (h : some (dir, amt) ∈ runIteration llm portfolio toks) : 1 ≤ amt := by
  unfold runIteration at h
  rw [List.mem_map] at h
  obtain ⟨tf, -, heq⟩ := h
  exact processToken_amount_ge_one portfolio tf.1.unit _ dir amt heq

/-- Witness for C7: a concrete iteration executes a 100 ADA buy, and the
theorem yields 1 ≤ 100 for it. -/
theorem claim7_witness :
    some (Direction.buy, (100 : ℚ)) ∈ runIteration llmBuyHigh none [(sampleToken, allOkFetches)] ∧
    (1 : ℚ) ≤ 100 := by
  have hmem : some (Direction.buy, (100 : ℚ)) ∈
      runIteration llmBuyHigh none [(sampleToken, allOkFetches)] := by
    rw [iterationEvalOk]
    exact List.mem_singleton.mpr rfl
  exact ⟨hmem, claim7_swap_amount_ge_one llmBuyHigh none _ Direction.buy 100 hmem⟩

/-- C5 counterexample: a token whose six market-data fetches all fail is not
skipped; with the degraded (default) data the decision source can still order
a trade, and the iteration executes it. -/
theorem claim5_counterexample :
    runIteration llmBuyHigh none [(sampleToken, allFailedFetches)] ≠ [none] := by
  rw [iterationEvalFailedFetches]
  simp

/-- C5 amended: per-token failures are caught inside the failing step, so the
iteration always evaluates every token (the outcome list has one entry per
token); a failed decision request is replaced by the reject-all default and
that token is skipped, while a failed market-data fetch only degrades the
token's data. -/
theorem claim5_failure_isolation (llm : TokenData → Except Unit LlmDecision)
    (portfolio : Option Snapshot) (toks : List (TapToolsVolumeToken × FetchResults)) :
    (runIteration llm portfolio toks).length = toks.length ∧
    (∀ tf ∈ toks, llm (buildTokenData tf.1 tf.2) = Except.error () →
      processToken portfolio tf.1.unit
        (jsCatch (llm (buildTokenData tf.1 tf.2)) defaultLlmDecision) = none) := by
  constructor
  · exact List.length_map _ _
  · intro tf _ herr
    rw [herr]
    rfl

/-- Witness for C5: one token with a failing decision request still yields an
outcome list of length one, and its outcome is a skip. -/
theorem claim5_witness :
    (runIteration llmAlwaysError none [(sampleToken, allOkFetches)]).length = 1 ∧
    processToken none sampleToken.unit
      (jsCatch (llmAlwaysError (buildTokenData sampleToken allOkFetches)) defaultLlmDecision) = none := by
  refine ⟨?_, ?_⟩
  · exact (claim5_failure_isolation llmAlwaysError none [(sampleToken, allOkFetches)]).1
  · exact (claim5_failure_isolation llmAlwaysError none [(sampleToken, allOkFetches)]).2
      (sampleToken, allOkFetches) (by simp) rfl

/-- C6 counterexample: with an address configured and the address-info lookup
failed (null), the iteration still evaluates the token and executes a trade,
so it does not end early. -/
theorem claim6_counterexample :
    runLoop (fun _ => 0) (fun _ => 0) llmBuyHigh true none [(sampleToken, allOkFetches)] =
      [some (Direction.buy, 100)] ∧
    (runLoop (fun _ => 0) (fun _ => 0) llmBuyHigh true none
        [(sampleToken, allOkFetches)]).any (fun o => o.isSome) = true := by
  have h : runLoop (fun _ => 0) (fun _ => 0) llmBuyHigh true none [(sampleToken, allOkFetches)] =
      runIteration llmBuyHigh none [(sampleToken, allOkFetches)] := rfl
  rw [h, iterationEvalOk]
  exact ⟨rfl, rfl⟩

/-- C6 amended: a failed address-info lookup with a configured address makes
the iteration behave exactly as if no address were configured: it proceeds
through every token with no portfolio constraints, rather than ending early. -/
theorem claim6_lookup_failure_degrades (prices : String → ℚ)
    (lookupDecimals : String → Nat) (llm : TokenData → Except Unit LlmDecision)
    (addressLookup : Option AddressInfo)
    (toks : List (TapToolsVolumeToken × FetchResults)) :
    runLoop prices lookupDecimals llm true none toks =
      runLoop prices lookupDecimals llm false addressLookup toks := rfl

/-- C8 counterexample: in the part_001 valuation an asset with raw quantity
1000000, price 1 and externally resolved decimals 6 contributes 1000000,
while the claimed formula (rawQuantity / 10^decimals) * price gives 1. -/
theorem claim8_counterexample :
    (valuationStep001 (fun u => if u = "assetU" then 1 else 0) (fun _ => 0)
        { unit := "assetU", quantity := 1000000 }) Category.other = 1000000 ∧
    ((1000000 : ℚ) / 10 ^ resolveDecimals (fun _ => 6) "assetU") *
        ((fun u => if u = "assetU" then (1 : ℚ) else 0) "assetU") = 1 ∧
    (1000000 : ℚ) ≠ 1 := by
  have hclass : classifyToken "assetU" = Category.other := by decide
  have hdec : resolveDecimals (fun _ => 6) "assetU" = 6 := by decide
  refine ⟨?_, ?_, by norm_num⟩
  · simp [valuationStep001, assetValue001, hclass]
    norm_num
  · rw [hdec]
    norm_num

/-- C8 amended: a wallet asset with positive price contributes
(rawQuantity / 10^decimals) * price in the part_000 loop, with decimals
resolved from the TokenConfig when present and nonzero and otherwise from the
external lookup; the part_001 loop instead contributes rawQuantity * price
with no decimals division. -/
theorem claim8_asset_contribution (prices : String → ℚ)
    (lookupDecimals : String → Nat) (s : Snapshot) (f : Category → ℚ)
    (a : WalletAsset) (h : 0 < prices a.unit) :
    (valuationStep000 prices lookupDecimals s a).totalAdaValue =
      s.totalAdaValue +
        ((a.quantity : ℚ) / 10 ^ resolveDecimals lookupDecimals a.unit) * prices a.unit ∧
    (valuationStep000 prices lookupDecimals s a).categoryValues (assetCategory000 a.unit) =
      s.categoryValues (assetCategory000 a.unit) +
        ((a.quantity : ℚ) / 10 ^ resolveDecimals lookupDecimals a.unit) * prices a.unit ∧
    valuationStep001 prices f a (classifyToken a.unit) =
      f (classifyToken a.unit) + (a.quantity : ℚ) * prices a.unit := by
  have hnp : ¬ prices a.unit ≤ 0 := not_le.mpr h
  unfold valuationStep000 valuationStep001 assetValue000 assetValue001
  rw [if_neg hnp, if_neg hnp]
  refine ⟨rfl, ?_, ?_⟩
  · simp
  · simp

/-- Witness for C8: a concrete asset of quantity 5, price 1 and decimals 0
contributes 5 in both variants. -/
theorem claim8_witness :
    (valuationStep000 (fun _ => 1) (fun _ => 0) (seedSnapshot 0)
        { unit := "w", quantity := 5 }).totalAdaValue =
      (seedSnapshot 0).totalAdaValue +
        (((5 : ℤ) : ℚ) / 10 ^ resolveDecimals (fun _ => 0) "w") * 1 ∧
    (valuationStep000 (fun _ => 1) (fun _ => 0) (seedSnapshot 0)
        { unit := "w", quantity := 5 }).categoryValues (assetCategory000 "w") =
      (seedSnapshot 0).categoryValues (assetCategory000 "w") +
        (((5 : ℤ) : ℚ) / 10 ^ resolveDecimals (fun _ => 0) "w") * 1 ∧
    valuationStep001 (fun _ => 1) (fun _ => 0) { unit := "w", quantity := 5 }
        (classifyToken "w") =
      (fun _ => (0 : ℚ)) (classifyToken "w") + ((5 : ℤ) : ℚ) * 1 :=
  claim8_asset_contribution (fun _ => 1) (fun _ => 0) (seedSnapshot 0) (fun _ => 0)
    { unit := "w", quantity := 5 } (by norm_num)

/-- C10: getTokenInfo compares its unit argument against configured tickers;
when no ticker equals the unit it returns the fallback config with category
other, minTradeSize 10 and maxTradeSize 200, and it never returns none, so
the loop's missing-config skip branch is unreachable. -/
theorem claim10_token_info_fallback (unit : String) :
    (getTokenInfo unit).isSome = true ∧
    ((∀ cfg ∈ TRADING_TOKENS, cfg.ticker ≠ unit) →
      getTokenInfo unit = some (fallbackTokenConfig unit) ∧
      (fallbackTokenConfig unit).category = Category.other ∧
      (fallbackTokenConfig unit).minTradeSize = some 10 ∧
      (fallbackTokenConfig unit).maxTradeSize = some 200) := by
  constructor
  · cases h : getTokenConfigByTicker unit <;> simp [getTokenInfo, h]
  · intro hnone
    have h : getTokenConfigByTicker unit = none := by
      unfold getTokenConfigByTicker
      rw [List.find?_eq_none]
      intro cfg hm
      simpa using hnone cfg hm
    exact ⟨by simp [getTokenInfo, h], rfl, rfl, rfl⟩

/-- Witness for C10: the SNEK unit string equals no configured ticker, so
getTokenInfo returns the fallback config for it. -/
theorem claim10_witness :
    (getTokenInfo snekUnit).isSome = true ∧
    getTokenInfo snekUnit = some (fallbackTokenConfig snekUnit) :=
  ⟨(claim10_token_info_fallback snekUnit).1,
    ((claim10_token_info_fallback snekUnit).2 (by decide)).1⟩

end TradingAgent
